import Mathlib

/-!
Shallow embedding of `src/collectionApi.c` (a minimal ChromaDB HTTP client):
the growable response buffer (`MemoryStruct` / `WriteMemoryCallback`), the
JSON response decoding (`parseCollectionResponse`, on top of a model of the
vendored cJSON parser), and the three curl-based operations
(`testConnection`, `createCollection`, `getCollection`).

Machine integers (`size_t`) are modelled as `Nat`; C byte buffers as
`List Nat`; C strings as Lean `String`.  The transport (libcurl) is an
oracle: a function from the request the code builds to an outcome (a curl
result code, an HTTP status, and the body chunks delivered to the write
callback).  Allocation success of `realloc` is an explicit oracle argument,
and the indeterminate content of uninitialised memory (`malloc(1)`,
`realloc` growth) is an explicit `junk` byte argument.
-/

/-- Response accumulator, from `MemoryStruct` in `src/collectionApi.c`:
`memory` is the allocated buffer (its length is the allocated capacity) and
`size` the number of accumulated payload bytes. -/
structure MemoryStruct where
  memory : List Nat
  size : Nat
deriving Repr, DecidableEq

/-- Model of C `realloc(old, newLen)`: on success (oracle `ok`) the new
block keeps the old bytes up to `min old.length newLen` and the bytes
beyond the old length are indeterminate (modelled by `junk`); on failure it
returns `none` and the old block is untouched. -/
def reallocModel (ok : Bool) (junk : Nat) (old : List Nat) (newLen : Nat) : Option (List Nat) :=
  if ok then some (old.take newLen ++ List.replicate (newLen - old.length) junk) else none

/-- Model of C `memcpy(&buf[off], bytes, bytes.length)`: overwrite `buf`
starting at offset `off` with `bytes`. -/
def writeBytes (buf : List Nat) (off : Nat) (bytes : List Nat) : List Nat :=
  buf.take off ++ bytes ++ buf.drop (off + bytes.length)

/-- Embedding of `WriteMemoryCallback` (src/collectionApi.c:91-107): grow
the buffer to `size + realsize + 1` bytes via `realloc`; on allocation
failure print an error and report 0 bytes consumed, leaving `mem`
untouched; on success copy the chunk at offset `mem.size`, bump `size`,
write the terminating 0 byte, and report `realsize` bytes consumed. -/
def WriteMemoryCallback (allocOk : Bool) (junk : Nat) (contents : List Nat)
    (size nmemb : Nat) (mem : MemoryStruct) : MemoryStruct × Nat :=
  let realsize := size * nmemb
  match reallocModel allocOk junk mem.memory (mem.size + realsize + 1) with
  | none => (mem, 0)
  | some ptr =>
      let buf := writeBytes ptr mem.size (contents.take realsize)
      let buf2 := buf.set (mem.size + realsize) 0
      (⟨buf2, mem.size + realsize⟩, realsize)

/-- Fresh accumulator as `getCollection` initialises it
(src/collectionApi.c:121-122): `malloc(1)` with the single byte left
uninitialised (the `junk` argument), `size = 0`.  The code does not write
a terminator before the first append. -/
def freshChunk (junk : Nat) : MemoryStruct := ⟨[junk], 0⟩

/-- Deliver a list of chunks to the accumulator's append callback, every
allocation succeeding, as libcurl does for a body received in that
chunking (libcurl invokes the callback with element size 1). -/
def runAppends (junk : Nat) (chunks : List (List Nat)) : MemoryStruct :=
  chunks.foldl (fun m c => (WriteMemoryCallback true junk c 1 c.length m).1) (freshChunk junk)

/-- Deliver chunks with a per-append allocation oracle, as libcurl does
during `curl_easy_perform`: if an append consumes fewer bytes than
offered (the callback returns 0 on allocation failure), the transfer is
aborted and no further chunks are delivered. -/
def feedChunks (junk : Nat) : List Bool → List (List Nat) → MemoryStruct → MemoryStruct
  | _, [], mem => mem
  | oks, c :: cs, mem =>
      let step := WriteMemoryCallback (oks.headD true) junk c 1 c.length mem
      if step.2 = c.length then feedChunks junk oks.tail cs step.1 else step.1

/-- JSON values as the cJSON tree represents them: objects keep their
fields in source order and may repeat keys; numbers keep their lexed text
(their numeric value is irrelevant to this client). -/
inductive Json where
  | null : Json
  | bool : Bool → Json
  | num : String → Json
  | str : String → Json
  | arr : List Json → Json
  | obj : List (String × Json) → Json

/-- Left-brace character, written via its code point. -/
def lbrace : Char := Char.ofNat 123

/-- Right-brace character, written via its code point. -/
def rbrace : Char := Char.ofNat 125

/-- Whitespace skipping as cJSON's `buffer_skip_whitespace`. -/
def skipWs : List Char → List Char
  | c :: cs => if c = ' ' ∨ c = '\t' ∨ c = '\n' ∨ c = '\r' then skipWs cs else c :: cs
  | [] => []

/-- Hexadecimal digit value, for `\u` escapes. -/
def hexVal (c : Char) : Option Nat :=
  if '0' ≤ c ∧ c ≤ '9' then some (c.toNat - '0'.toNat)
  else if 'a' ≤ c ∧ c ≤ 'f' then some (c.toNat - 'a'.toNat + 10)
  else if 'A' ≤ c ∧ c ≤ 'F' then some (c.toNat - 'A'.toNat + 10)
  else none

/-- Single-character JSON string escapes. -/
def escChar (c : Char) : Option Char :=
  if c = '"' then some '"'
  else if c = '\\' then some '\\'
  else if c = '/' then some '/'
  else if c = 'b' then some (Char.ofNat 8)
  else if c = 'f' then some (Char.ofNat 12)
  else if c = 'n' then some '\n'
  else if c = 'r' then some '\r'
  else if c = 't' then some '\t'
  else none

/-- Modelled from the spec: body of a JSON string literal (after the
opening quote), part of the cJSON parser, whose source (`cJSON.c`, included
by `src/collectionApi.c`) is not under `src/`.  Errors carry the remaining
input at the failure point, which is what the parser's error position
renders as.  Surrogate pairs in `\u` escapes are simplified to a single
code point. -/
def parseStringBody : Nat → List Char → List Char → Except (List Char) (String × List Char)
  | 0, cs, _ => .error cs
  | fuel + 1, cs, acc =>
      match cs with
      | [] => .error []
      | '"' :: rest => .ok (String.mk acc.reverse, rest)
      | '\\' :: 'u' :: h1 :: h2 :: h3 :: h4 :: rest =>
          match hexVal h1, hexVal h2, hexVal h3, hexVal h4 with
          | some a, some b, some c, some d =>
              parseStringBody fuel rest (Char.ofNat (((a * 16 + b) * 16 + c) * 16 + d) :: acc)
          | _, _, _, _ => .error cs
      | '\\' :: e :: rest =>
          match escChar e with
          | some c => parseStringBody fuel rest (c :: acc)
          | none => .error cs
      | c :: rest => parseStringBody fuel rest (c :: acc)

/-- Modelled from the spec: lex a JSON number (sign, digits, optional
fraction and exponent), part of the missing cJSON parser.  Leading zeros
are tolerated, as cJSON tolerates them. -/
def parseNumber (cs : List Char) : Except (List Char) (Json × List Char) :=
  let signAndRest : List Char × List Char :=
    match cs with
    | '-' :: r => (['-'], r)
    | _ => ([], cs)
  let ds := signAndRest.2.takeWhile Char.isDigit
  if ds = [] then .error cs else
  let cs2 := signAndRest.2.drop ds.length
  let fracAndRest : List Char × List Char :=
    match cs2 with
    | '.' :: r =>
        let fs := r.takeWhile Char.isDigit
        if fs = [] then ([], cs2) else ('.' :: fs, r.drop fs.length)
    | _ => ([], cs2)
  let cs3 := fracAndRest.2
  let expAndRest : List Char × List Char :=
    match cs3 with
    | e :: r =>
        if e = 'e' ∨ e = 'E' then
          let signedTail : List Char × List Char :=
            match r with
            | c :: rr => if c = '+' ∨ c = '-' then ([c], rr) else ([], r)
            | [] => ([], r)
          let es := signedTail.2.takeWhile Char.isDigit
          if es = [] then ([], cs3)
          else (e :: (signedTail.1 ++ es), signedTail.2.drop es.length)
        else ([], cs3)
    | [] => ([], cs3)
  .ok (.num (String.mk (signAndRest.1 ++ ds ++ fracAndRest.1 ++ expAndRest.1)),
       expAndRest.2)

/-- Parsing mode for the recursive descent: a single value, the element
loop of an array (with the elements parsed so far), or the member loop of
an object (with the fields parsed so far).  A single mode-indexed function
keeps the recursion structural on the fuel. -/
inductive PMode where
  | value : PMode
  | elems : List Json → PMode
  | members : List (String × Json) → PMode

/-- Modelled from the spec: recursive-descent JSON parsing, the core of
the missing cJSON parser ("Parses `responseBody` as JSON").  Fuel bounds
the recursion depth; the top level supplies more fuel than the input
length, so fuel exhaustion never fires on real input.  Errors carry the
remaining input at the failure point. -/
def parseJ : Nat → PMode → List Char → Except (List Char) (Json × List Char)
  | 0, _, cs => .error cs
  | fuel + 1, .value, cs =>
      match skipWs cs with
      | [] => .error []
      | 'n' :: 'u' :: 'l' :: 'l' :: rest => .ok (.null, rest)
      | 't' :: 'r' :: 'u' :: 'e' :: rest => .ok (.bool true, rest)
      | 'f' :: 'a' :: 'l' :: 's' :: 'e' :: rest => .ok (.bool false, rest)
      | '"' :: rest =>
          match parseStringBody fuel rest [] with
          | .error e => .error e
          | .ok (s, rest2) => .ok (.str s, rest2)
      | '[' :: rest =>
          match skipWs rest with
          | ']' :: r => .ok (.arr [], r)
          | other => parseJ fuel (.elems []) other
      | c :: rest =>
          if c = lbrace then
            match skipWs rest with
            | r :: rs =>
                if r = rbrace then .ok (.obj [], rs)
                else parseJ fuel (.members []) (r :: rs)
            | [] => .error []
          else if c = '-' ∨ c.isDigit then parseNumber (c :: rest)
          else .error (c :: rest)
  | fuel + 1, .elems acc, cs =>
      match parseJ fuel .value cs with
      | .error e => .error e
      | .ok (v, rest) =>
          match skipWs rest with
          | ',' :: r => parseJ fuel (.elems (v :: acc)) r
          | ']' :: r => .ok (.arr (v :: acc).reverse, r)
          | other => .error other
  | fuel + 1, .members acc, cs =>
      match skipWs cs with
      | '"' :: rest =>
          match parseStringBody fuel rest [] with
          | .error e => .error e
          | .ok (key, rest2) =>
              match skipWs rest2 with
              | ':' :: r =>
                  match parseJ fuel .value r with
                  | .error e => .error e
                  | .ok (v, rest3) =>
                      match skipWs rest3 with
                      | ',' :: r2 => parseJ fuel (.members ((key, v) :: acc)) r2
                      | r2 :: rs2 =>
                          if r2 = rbrace then .ok (.obj ((key, v) :: acc).reverse, rs2)
                          else .error (r2 :: rs2)
                      | [] => .error []
              | other => .error other
      | other => .error other

/-- Modelled from the spec: `cJSON_Parse` over the whole input.  As in
cJSON's default configuration, trailing bytes after a complete top-level
value are ignored (termination of the input is not required).  On failure
the error carries the remaining input at the failure point; the caller's
`cJSON_GetErrorPtr` points there, so `fprintf("Error before: %s")` prints
exactly that suffix.  Fuel is generous: each level of nesting consumes at
least one input character. -/
def cJSON_Parse (s : String) : Except String Json :=
  match parseJ (2 * s.data.length + 2) .value s.data with
  | .ok (j, _) => .ok j
  | .error rem => .error (String.mk rem)

/-- First object field whose key matches exactly (case-sensitive
`strcmp`), as cJSON's item lookup walks the child list. -/
def findCaseSensitive : List (String × Json) → String → Option Json
  | [], _ => none
  | (k, v) :: rest, key => if k = key then some v else findCaseSensitive rest key

/-- Embedding of `cJSON_GetObjectItemCaseSensitive`: only objects have
named children; on any other value the lookup yields nothing. -/
def cJSON_GetObjectItemCaseSensitive (j : Json) (key : String) : Option Json :=
  match j with
  | .obj fields => findCaseSensitive fields key
  | _ => none

/-- Embedding of the `cJSON_IsString(item) && item->valuestring != NULL`
guard applied to a possibly-absent item (`cJSON_IsString(NULL)` is false;
a parsed string item always has a non-null `valuestring`). -/
def getStrField : Option Json → Option String
  | some (.str t) => some t
  | _ => none

/-- Collection record from `src/collectionApi.c:33-37`: two nullable
string fields (`NULL` is `none`). -/
structure Collection where
  id : Option String
  name : Option String
deriving Repr, DecidableEq

/-- Embedding of `parseCollectionResponse` (src/collectionApi.c:45-70).
The second component is the sequence of lines written to stderr: on parse
failure the code prints `Error before: ` followed by the input's suffix at
the parser's error position. -/
def parseCollectionResponse (response : String) : Collection × List String :=
  match cJSON_Parse response with
  | .error rem => (⟨none, none⟩, ["Error before: " ++ rem])
  | .ok j =>
      (⟨getStrField (cJSON_GetObjectItemCaseSensitive j "id"),
        getStrField (cJSON_GetObjectItemCaseSensitive j "name")⟩, [])

/-- Model of `snprintf(buf, 256, ...)` output: the formatted string
truncated to the 255 characters that fit before the terminator. -/
def snprintf256 (s : String) : String := String.mk (s.data.take 255)

/-- URL built by `getCollection` (src/collectionApi.c:128-129). -/
def getCollectionUrl (baseUrl collectionName : String) : String :=
  snprintf256 (baseUrl ++ "/api/v1/collections/" ++ collectionName)

/-- JSON payload built by `createCollection` (src/collectionApi.c:207):
plain interpolation of the collection name, no escaping. -/
def createPayload (collectionName : String) : String :=
  snprintf256 ("\x7b\"name\":\"" ++ collectionName ++ "\"\x7d")

/-- HTTP request as the code hands it to libcurl. -/
structure Request where
  method : String
  url : String
  headers : List String
  body : Option String
deriving Repr, DecidableEq

/-- Outcome of `curl_easy_perform`: the CURLcode (0 is `CURLE_OK`), the
HTTP status of the response, and the body chunks delivered to the write
callback during the transfer. -/
structure HttpOutcome where
  code : Nat
  status : Nat
  chunks : List (List Nat)

/-- Transport oracle standing for libcurl: whether `curl_easy_init`
succeeds, and the outcome of performing a request. -/
structure Transport where
  initOk : Bool
  perform : Request → HttpOutcome

/-- Model of `curl_easy_strerror`; the exact text is immaterial to the
client's behaviour. -/
def curlStrerror (c : Nat) : String := "curl error " ++ toString c

/-- Error line the code writes to stderr when `curl_easy_perform` fails. -/
def performFailedLine (c : Nat) : String :=
  "curl_easy_perform() failed: " ++ curlStrerror c

/-- Request issued by `testConnection` (src/collectionApi.c:158-165):
a GET (libcurl's default method) to `{baseUrl}/heartbeat` as formatted by
`snprintf` into a 256-byte buffer. -/
def heartbeatReq (baseUrl : String) : Request :=
  ⟨"GET", snprintf256 (baseUrl ++ "/heartbeat"), [], none⟩

/-- Request issued by `getCollection` (src/collectionApi.c:128-133). -/
def getCollectionReq (baseUrl collectionName : String) : Request :=
  ⟨"GET", getCollectionUrl baseUrl collectionName, [], none⟩

/-- Request issued by `createCollection` (src/collectionApi.c:203-219):
POST to `{baseUrl}/api/v1/collections` with the JSON content-type header
and the interpolated payload. -/
def createCollectionReq (baseUrl collectionName : String) : Request :=
  ⟨"POST", snprintf256 (baseUrl ++ "/api/v1/collections"),
   ["Content-Type: application/json"], some (createPayload collectionName)⟩

/-- Embedding of `testConnection` (src/collectionApi.c:153-182).  Result
is the returned int (1 success, 0 failure) paired with the stderr lines.
If `curl_easy_init` fails the function returns 0 without performing any
request; otherwise it returns 1 exactly when the transport reports
`CURLE_OK`, never inspecting the HTTP status. -/
def testConnection (t : Transport) (baseUrl : String) : Nat × List String :=
  if t.initOk then
    let o := t.perform (heartbeatReq baseUrl)
    if o.code ≠ 0 then (0, [performFailedLine o.code]) else (1, [])
  else (0, [])

/-- Embedding of `createCollection` (src/collectionApi.c:191-235). -/
def createCollection (t : Transport) (baseUrl collectionName : String) : Nat × List String :=
  if t.initOk then
    let o := t.perform (createCollectionReq baseUrl collectionName)
    if o.code = 0 then (1, []) else (0, [performFailedLine o.code])
  else (0, [])

/-- Embedding of `getCollection` (src/collectionApi.c:116-145): allocate
the 1-byte accumulator (content uninitialised), and if `curl_easy_init`
succeeded, perform the GET, feeding received chunks through
`WriteMemoryCallback` (aborting on a short write).  The accumulator is
returned in every case. -/
def getCollection (junk : Nat) (alloc : List Bool) (t : Transport)
    (baseUrl collectionName : String) : MemoryStruct × List String :=
  let chunk := freshChunk junk
  if t.initOk then
    let o := t.perform (getCollectionReq baseUrl collectionName)
    let final := feedChunks junk alloc o.chunks chunk
    (final, if o.code ≠ 0 then [performFailedLine o.code] else [])
  else (chunk, [])

/-- Setting the final element of a list addressed by the length of its
prefix. -/
theorem set_last (l : List Nat) (y v : Nat) : (l ++ [y]).set l.length v = l ++ [v] := by
  induction l with
  | nil => rfl
  | cons a as ih => simp [List.set, ih]

/-- Overwriting a suffix region that lies entirely inside the buffer. -/
theorem writeBytes_at (pre mid bs : List Nat) :
    writeBytes (pre ++ mid) pre.length bs = pre ++ bs ++ mid.drop bs.length := by
  unfold writeBytes
  rw [List.take_left, List.drop_append bs.length, List.append_assoc]

/-- Successful realloc keeps the old block as a prefix and pads the growth
with indeterminate bytes. -/
theorem reallocModel_grow (junk : Nat) (old : List Nat) (n : Nat) :
    reallocModel true junk old (old.length + n) = some (old ++ List.replicate n junk) := by
  simp [reallocModel, List.take_of_length_le (Nat.le_add_right old.length n)]

/-- One successful append on a buffer of shape `bytes ++ [x]` (the
accumulated bytes followed by the 1-byte slack holding the terminator, or
the uninitialised byte of the fresh accumulator): the result is the old
bytes, then the chunk, then the new terminator. -/
theorem wmc_true (junk x : Nat) (c bytes : List Nat) :
    WriteMemoryCallback true junk c 1 c.length ⟨bytes ++ [x], bytes.length⟩
      = (⟨bytes ++ c ++ [0], bytes.length + c.length⟩, c.length) := by
  have hlen : (bytes ++ [x]).length = bytes.length + 1 := by simp
  have harg : bytes.length + 1 * c.length + 1 = (bytes ++ [x]).length + c.length := by
    simp; omega
  have hr : reallocModel true junk (bytes ++ [x]) (bytes.length + 1 * c.length + 1)
      = some ((bytes ++ [x]) ++ List.replicate c.length junk) := by
    rw [harg, reallocModel_grow]
  have hassoc : (bytes ++ [x]) ++ List.replicate c.length junk
      = bytes ++ ([x] ++ List.replicate c.length junk) := by
    rw [List.append_assoc]
  have htail : ∃ y, ([x] ++ List.replicate c.length junk).drop c.length = [y] := by
    apply List.length_eq_one.mp
    simp
  obtain ⟨y, hy⟩ := htail
  have hw : writeBytes ((bytes ++ [x]) ++ List.replicate c.length junk) bytes.length c
      = bytes ++ c ++ [y] := by
    rw [hassoc, writeBytes_at bytes ([x] ++ List.replicate c.length junk) c, hy]
  have hset : (bytes ++ c ++ [y]).set (bytes.length + c.length) 0 = bytes ++ c ++ [0] := by
    have : bytes.length + c.length = (bytes ++ c).length := (List.length_append bytes c).symm
    rw [this, set_last]
  show (match reallocModel true junk (bytes ++ [x]) (bytes.length + 1 * c.length + 1) with
    | none => ((⟨bytes ++ [x], bytes.length⟩ : MemoryStruct), 0)
    | some ptr =>
        ((⟨(writeBytes ptr bytes.length (c.take (1 * c.length))).set (bytes.length + 1 * c.length) 0,
          bytes.length + 1 * c.length⟩ : MemoryStruct), 1 * c.length))
    = (⟨bytes ++ c ++ [0], bytes.length + c.length⟩, c.length)
  rw [hr]
  simp only [Nat.one_mul, List.take_length]
  rw [hw, hset]

/-- Shape of a successful append: returned byte count, new size, and new
buffer length, for arbitrary `size`/`nmemb` and chunk contents. -/
theorem wmc_true_shape (junk : Nat) (contents : List Nat) (size nmemb : Nat)
    (mem : MemoryStruct) :
    (WriteMemoryCallback true junk contents size nmemb mem).1.memory.length
        = mem.size + size * nmemb + 1 ∧
    (WriteMemoryCallback true junk contents size nmemb mem).1.size
        = mem.size + size * nmemb ∧
    (WriteMemoryCallback true junk contents size nmemb mem).2 = size * nmemb := by
  have hptr : reallocModel true junk mem.memory (mem.size + size * nmemb + 1)
      = some (mem.memory.take (mem.size + size * nmemb + 1)
          ++ List.replicate (mem.size + size * nmemb + 1 - mem.memory.length) junk) := rfl
  show ((match reallocModel true junk mem.memory (mem.size + size * nmemb + 1) with
    | none => (mem, 0)
    | some ptr =>
        ((⟨(writeBytes ptr mem.size (contents.take (size * nmemb))).set (mem.size + size * nmemb) 0,
          mem.size + size * nmemb⟩ : MemoryStruct), size * nmemb)).1.memory.length
        = mem.size + size * nmemb + 1) ∧ _ ∧ _
  rw [hptr]
  refine ⟨?_, rfl, rfl⟩
  simp [writeBytes, List.length_set, List.length_append, List.length_take,
    List.length_replicate, List.length_drop]
  omega

/-- A failing append leaves the accumulator untouched and reports zero
bytes consumed. -/
theorem wmc_false_eq (junk : Nat) (contents : List Nat) (size nmemb : Nat)
    (mem : MemoryStruct) :
    WriteMemoryCallback false junk contents size nmemb mem = (mem, 0) := rfl

/-- Folding successful appends over a buffer of shape `bytes ++ [x]`
appends the concatenation of the chunks and terminates the result. -/
theorem runAppends_go (junk : Nat) (chunks : List (List Nat)) :
    ∀ (bytes : List Nat) (x : Nat), chunks ≠ [] →
      List.foldl (fun m c => (WriteMemoryCallback true junk c 1 c.length m).1)
          (⟨bytes ++ [x], bytes.length⟩ : MemoryStruct) chunks
        = ⟨bytes ++ chunks.flatten ++ [0], bytes.length + chunks.flatten.length⟩ := by
  induction chunks with
  | nil => intro bytes x h; exact absurd rfl h
  | cons c cs ih =>
      intro bytes x _
      rw [List.foldl_cons, wmc_true]
      cases cs with
      | nil => simp
      | cons c2 cs2 =>
          have hsz : bytes.length + c.length = (bytes ++ c).length := by simp
          have hmem : bytes ++ c ++ [0] = (bytes ++ c) ++ [0] := rfl
          rw [hmem, hsz, ih (bytes ++ c) 0 (by simp)]
          simp [List.flatten, List.append_assoc]
          omega

/-- Claim C1: for every sequence of chunks delivered to the accumulator's
append callback, in any chunking, if every append succeeds then the
accumulated content (the first `size` buffer bytes) equals the
concatenation of all chunks in order, and after at least one append the
buffer is exactly that concatenation followed by the 0 terminator at
position `size`. -/
theorem c1_accumulator_concatenation (junk : Nat) (chunks : List (List Nat)) :
    (runAppends junk chunks).size = chunks.flatten.length ∧
    (runAppends junk chunks).memory.take (runAppends junk chunks).size = chunks.flatten ∧
    (chunks ≠ [] → (runAppends junk chunks).memory = chunks.flatten ++ [0]) := by
  unfold runAppends freshChunk
  cases chunks with
  | nil => simp
  | cons c cs =>
      have h0 : (⟨[junk], 0⟩ : MemoryStruct)
          = ⟨([] : List Nat) ++ [junk], ([] : List Nat).length⟩ := rfl
      rw [h0, runAppends_go junk (c :: cs) [] junk (by simp)]
      refine ⟨by simp, ?_, fun _ => by simp⟩
      show (([] ++ (c :: cs).flatten ++ [0]).take ([].length + (c :: cs).flatten.length)
          = (c :: cs).flatten)
      simp only [List.nil_append, List.length_nil, Nat.zero_add]
      exact List.take_left (c :: cs).flatten [0]

/-- Witness for C1 at a concrete chunking. -/
theorem c1_accumulator_concatenation_w :
    (runAppends 7 [[1, 2], [3], [], [4, 5, 6]]).memory = [1, 2, 3, 4, 5, 6, 0] := by
  have h := (c1_accumulator_concatenation 7 [[1, 2], [3], [], [4, 5, 6]]).2.2 (by decide)
  simpa using h

/-- Claim C5: when an append hits an allocation failure, the callback
reports zero bytes consumed and the accumulator (buffer and length) is
unchanged. -/
theorem c5_allocation_failure_safe (junk : Nat) (contents : List Nat)
    (size nmemb : Nat) (mem : MemoryStruct) :
    WriteMemoryCallback false junk contents size nmemb mem = (mem, 0) :=
  wmc_false_eq junk contents size nmemb mem

/-- Claim C9: every successful append of `size * nmemb` bytes onto an
accumulator of length `mem.size` reallocates the buffer to exactly
`mem.size + size * nmemb + 1` bytes and returns `size * nmemb`. -/
theorem c9_exact_growth (junk : Nat) (contents : List Nat) (size nmemb : Nat)
    (mem : MemoryStruct) :
    (WriteMemoryCallback true junk contents size nmemb mem).1.memory.length
        = mem.size + size * nmemb + 1 ∧
    (WriteMemoryCallback true junk contents size nmemb mem).2 = size * nmemb :=
  ⟨(wmc_true_shape junk contents size nmemb mem).1,
   (wmc_true_shape junk contents size nmemb mem).2.2⟩

/-- Feeding chunks preserves the allocation invariant: the buffer always
holds exactly one byte more than the accumulated length. -/
theorem feedChunks_len (junk : Nat) :
    ∀ (chunks : List (List Nat)) (oks : List Bool) (mem : MemoryStruct),
      mem.memory.length = mem.size + 1 →
      (feedChunks junk oks chunks mem).memory.length = (feedChunks junk oks chunks mem).size + 1 := by
  intro chunks
  induction chunks with
  | nil => intro oks mem h; exact h
  | cons c cs ih =>
      intro oks mem h
      rw [feedChunks]
      cases hok : oks.headD true with
      | true =>
          have hs := wmc_true_shape junk c 1 c.length mem
          split
          · exact ih oks.tail _ (by rw [hs.1, hs.2.1])
          · rw [hs.1, hs.2.1]
      | false =>
          rw [wmc_false_eq]
          split
          · exact ih oks.tail _ h
          · exact h

/-- Claim C4 (amended): `getCollection` always returns an accumulator,
even on transport failure; the returned buffer is always allocated (one
byte beyond the accumulated length); when `curl_easy_init` fails, or when
the transfer delivered no bytes, the result is the fresh accumulator:
length 0 and a non-null 1-byte buffer whose single byte is the
uninitialised `malloc(1)` byte (not necessarily a null terminator). -/
theorem c4_accumulator_always_returned (junk : Nat) (alloc : List Bool) (t : Transport)
    (baseUrl collectionName : String) :
    ((getCollection junk alloc t baseUrl collectionName).1.memory.length
        = (getCollection junk alloc t baseUrl collectionName).1.size + 1) ∧
    (t.initOk = false →
        (getCollection junk alloc t baseUrl collectionName).1 = ⟨[junk], 0⟩) ∧
    (t.initOk = true →
        (t.perform (getCollectionReq baseUrl collectionName)).chunks = [] →
        (getCollection junk alloc t baseUrl collectionName).1 = ⟨[junk], 0⟩) := by
  unfold getCollection
  cases h : t.initOk with
  | false =>
      refine ⟨?_, fun _ => rfl, fun hcontra _ => absurd hcontra (by simp)⟩
      simp [freshChunk]
  | true =>
      refine ⟨?_, fun hcontra => absurd hcontra (by simp), fun _ hchunks => ?_⟩
      · simp only [if_true]
        exact feedChunks_len junk _ alloc (freshChunk junk) (by simp [freshChunk])
      · simp only [if_true, hchunks]
        rfl

/-- Witness for C4 at a concrete failing transport. -/
theorem c4_accumulator_always_returned_w :
    (getCollection 5 [] ⟨false, fun _ => ⟨7, 0, []⟩⟩ "http://localhost:8000"
        "TestCollection").1 = ⟨[5], 0⟩ :=
  (c4_accumulator_always_returned 5 [] ⟨false, fun _ => ⟨7, 0, []⟩⟩
      "http://localhost:8000" "TestCollection").2.1 rfl

/-- Counterexample to C4 as stated: the code initialises the fresh
accumulator with `malloc(1)` and never writes the byte before the first
append, so its content is indeterminate (the `junk` model argument).  In
the run below the transport fails before any byte arrives and the single
buffer byte is 7, not the null terminator the claim asserts. -/
theorem c4_counterexample :
    (getCollection 7 [] ⟨false, fun _ => ⟨7, 0, []⟩⟩ "http://localhost:8000"
        "TestCollection").1.memory = [7] ∧
    ¬ ((getCollection 7 [] ⟨false, fun _ => ⟨7, 0, []⟩⟩ "http://localhost:8000"
        "TestCollection").1.memory.headD 0 = 0) := by
  constructor
  · rfl
  · decide

/-- Truncation disappears when the formatted string fits the 256-byte
snprintf buffer. -/
theorem snprintf256_of_le (s : String) (h : s.length ≤ 255) : snprintf256 s = s := by
  cases s with
  | mk d => exact congrArg String.mk (List.take_of_length_le h)

set_option maxRecDepth 40000 in
/-- Counterexample to C8 as stated: a 300-character collection name
overflows the 256-byte `snprintf` buffers, so neither the URL path nor the
JSON payload contains the name verbatim — both are truncated to 255
characters. -/
theorem c8_counterexample :
    getCollectionUrl "http://localhost:8000" (String.mk (List.replicate 300 'a'))
        ≠ "http://localhost:8000/api/v1/collections/" ++ String.mk (List.replicate 300 'a') ∧
    createPayload (String.mk (List.replicate 300 'a'))
        ≠ "\x7b\"name\":\"" ++ String.mk (List.replicate 300 'a') ++ "\"\x7d" := by
  constructor
  · intro h
    have hl := congrArg String.length h
    have h1 : (getCollectionUrl "http://localhost:8000"
        (String.mk (List.replicate 300 'a'))).length = 255 := by decide
    have h2 : ("http://localhost:8000/api/v1/collections/"
        ++ String.mk (List.replicate 300 'a')).length = 341 := by decide
    rw [h1, h2] at hl
    exact absurd hl (by decide)
  · intro h
    have hl := congrArg String.length h
    have h1 : (createPayload (String.mk (List.replicate 300 'a'))).length = 255 := by decide
    have h2 : ("\x7b\"name\":\"" ++ String.mk (List.replicate 300 'a')
        ++ "\"\x7d").length = 311 := by decide
    rw [h1, h2] at hl
    exact absurd hl (by decide)

/-- Claim C8 (amended): the collection name is inserted verbatim, with no
escaping, into the URL path of `getCollection` and into the JSON payload
of `createCollection`, provided the formatted string fits the 256-byte
`snprintf` buffer (at most 255 characters); longer results are truncated
at 255 characters. -/
theorem c8_verbatim_insertion (baseUrl collectionName : String) :
    (baseUrl.length + 20 + collectionName.length ≤ 255 →
        getCollectionUrl baseUrl collectionName
          = baseUrl ++ "/api/v1/collections/" ++ collectionName) ∧
    (collectionName.length + 11 ≤ 255 →
        createPayload collectionName
          = "\x7b\"name\":\"" ++ collectionName ++ "\"\x7d") ∧
    (getCollectionUrl baseUrl collectionName).length ≤ 255 ∧
    (createPayload collectionName).length ≤ 255 := by
  have hsep : ("/api/v1/collections/" : String).length = 20 := rfl
  have hpre : ("\x7b\"name\":\"" : String).length = 9 := rfl
  have hpost : ("\"\x7d" : String).length = 2 := rfl
  have hsn : ∀ s : String, (snprintf256 s).length ≤ 255 := by
    intro s
    cases s with
    | mk d =>
        show (d.take 255).length ≤ 255
        rw [List.length_take]
        exact Nat.min_le_left 255 d.length
  refine ⟨fun h => ?_, fun h => ?_, hsn _, hsn _⟩
  · unfold getCollectionUrl
    apply snprintf256_of_le
    rw [String.length_append, String.length_append, hsep]
    omega
  · unfold createPayload
    apply snprintf256_of_le
    rw [String.length_append, String.length_append, hpre, hpost]
    omega

/-- Witness for C8 at the demo inputs. -/
theorem c8_verbatim_insertion_w :
    getCollectionUrl "http://localhost:8000" "TestCollection"
        = "http://localhost:8000/api/v1/collections/TestCollection" ∧
    createPayload "TestCollection" = "\x7b\"name\":\"TestCollection\"\x7d" := by
  constructor
  · have h := (c8_verbatim_insertion "http://localhost:8000" "TestCollection").1 (by decide)
    rw [h]
    rfl
  · have h := (c8_verbatim_insertion "http://localhost:8000" "TestCollection").2.1 (by decide)
    rw [h]
    rfl

/-- Claim C6: `testConnection` (the liveness probe) returns 1 exactly when
`curl_easy_init` succeeded and the transport completed the GET to the
heartbeat URL with `CURLE_OK`; and the result is invariant under any change
of the HTTP status of the response, because the code never inspects it. -/
theorem c6_heartbeat_transport_only (t : Transport) (baseUrl : String) :
    ((testConnection t baseUrl).1 = 1 ↔
        t.initOk = true ∧ (t.perform (heartbeatReq baseUrl)).code = 0) ∧
    (∀ f : Request → Nat,
        testConnection
            ⟨t.initOk, fun r => ⟨(t.perform r).code, f r, (t.perform r).chunks⟩⟩ baseUrl
          = testConnection t baseUrl) := by
  constructor
  · unfold testConnection
    cases h : t.initOk with
    | false => simp
    | true =>
        by_cases hc : (t.perform (heartbeatReq baseUrl)).code = 0 <;> simp [hc]
  · intro f
    unfold testConnection
    rfl

/-- Claim C7: `createCollection` returns 1 exactly when `curl_easy_init`
succeeded and the transport reports `CURLE_OK` for the POST it builds
(status-code-agnostic); on a transport error it returns 0 and logs the
curl error line to stderr; no other output channel exists in the
embedding (the C function throws nothing). -/
theorem c7_create_transport_only (t : Transport) (baseUrl collectionName : String) :
    ((createCollection t baseUrl collectionName).1 = 1 ↔
        t.initOk = true ∧ (t.perform (createCollectionReq baseUrl collectionName)).code = 0) ∧
    (t.initOk = true →
        (t.perform (createCollectionReq baseUrl collectionName)).code ≠ 0 →
        createCollection t baseUrl collectionName
          = (0, [performFailedLine (t.perform (createCollectionReq baseUrl collectionName)).code])) ∧
    (∀ f : Request → Nat,
        createCollection
            ⟨t.initOk, fun r => ⟨(t.perform r).code, f r, (t.perform r).chunks⟩⟩
            baseUrl collectionName
          = createCollection t baseUrl collectionName) := by
  refine ⟨?_, ?_, ?_⟩
  · unfold createCollection
    cases h : t.initOk with
    | false => simp
    | true =>
        by_cases hc : (t.perform (createCollectionReq baseUrl collectionName)).code = 0 <;>
          simp [hc]
  · intro hinit hc
    unfold createCollection
    rw [hinit]
    simp [hc]
  · intro f
    unfold createCollection
    rfl

/-- Witness for C7 at a concrete failing transport (CURLcode 7,
`CURLE_COULDNT_CONNECT`, with an HTTP status that is never consulted). -/
theorem c7_create_transport_only_w :
    createCollection ⟨true, fun _ => ⟨7, 500, []⟩⟩ "http://localhost:8000" "TestCollection"
      = (0, [performFailedLine 7]) :=
  (c7_create_transport_only ⟨true, fun _ => ⟨7, 500, []⟩⟩ "http://localhost:8000"
      "TestCollection").2.1 rfl (by decide)

/-- Claim C2: whenever the body parses as JSON, `parseCollectionResponse`
fills each of `id` and `name` with exactly the value found by an exact,
case-sensitive top-level lookup filtered to JSON strings: the field is set
to `some t` when the key is present with string value `t`, and left unset
when the key is absent or its value is not a string; no error is logged. -/
theorem c2_field_extraction (s : String) (j : Json) (h : cJSON_Parse s = .ok j) :
    (parseCollectionResponse s).1.id
        = getStrField (cJSON_GetObjectItemCaseSensitive j "id") ∧
    (parseCollectionResponse s).1.name
        = getStrField (cJSON_GetObjectItemCaseSensitive j "name") ∧
    (parseCollectionResponse s).2 = [] := by
  unfold parseCollectionResponse
  rw [h]
  exact ⟨rfl, rfl, rfl⟩

/-- Witness for C2 on the spec's example bodies: both fields present and
strings; `id` present but a number (left unset while `name` is set); `id`
absent (left unset while `name` is set). -/
theorem c2_field_extraction_w :
    ((parseCollectionResponse "\x7b\"id\":\"abc123\",\"name\":\"demo\"\x7d").1.id
        = getStrField (cJSON_GetObjectItemCaseSensitive
            (.obj [("id", .str "abc123"), ("name", .str "demo")]) "id") ∧
     (parseCollectionResponse "\x7b\"id\":\"abc123\",\"name\":\"demo\"\x7d").1.name
        = getStrField (cJSON_GetObjectItemCaseSensitive
            (.obj [("id", .str "abc123"), ("name", .str "demo")]) "name") ∧
     (parseCollectionResponse "\x7b\"id\":\"abc123\",\"name\":\"demo\"\x7d").2 = []) ∧
    (parseCollectionResponse "\x7b\"id\":123,\"name\":\"demo\"\x7d").1
        = ⟨none, some "demo"⟩ ∧
    (parseCollectionResponse "\x7b\"name\":\"demo\"\x7d").1 = ⟨none, some "demo"⟩ :=
  ⟨c2_field_extraction "\x7b\"id\":\"abc123\",\"name\":\"demo\"\x7d"
      (.obj [("id", .str "abc123"), ("name", .str "demo")]) rfl, rfl, rfl⟩

/-- Claim C3: whenever the body fails to parse as JSON,
`parseCollectionResponse` returns the Collection with both fields unset
and logs the parser's error position to stderr (`Error before: ` followed
by the input suffix at the error position); being a total function, it
raises nothing. -/
theorem c3_parse_failure (s rem : String) (h : cJSON_Parse s = .error rem) :
    parseCollectionResponse s = (⟨none, none⟩, ["Error before: " ++ rem]) := by
  unfold parseCollectionResponse
  rw [h]

/-- Witness for C3 on the spec's two example inputs: the empty string and
`not json`. -/
theorem c3_parse_failure_w :
    parseCollectionResponse "" = (⟨none, none⟩, ["Error before: "]) ∧
    parseCollectionResponse "not json" = (⟨none, none⟩, ["Error before: not json"]) :=
  ⟨c3_parse_failure "" "" rfl, c3_parse_failure "not json" "not json" rfl⟩

/-- Claim C10: `parseCollectionResponse` is deterministic — two
invocations on the same input yield Collections with identical `id` and
`name` contents (each field unset in one run exactly when unset in the
other, and equal as strings when set). -/
theorem c10_deterministic (s : String) (r1 r2 : Collection × List String)
    (h1 : parseCollectionResponse s = r1) (h2 : parseCollectionResponse s = r2) :
    r1.1.id = r2.1.id ∧ r1.1.name = r2.1.name := by
  subst h1
  subst h2
  exact ⟨rfl, rfl⟩

/-- Witness for C10 on a concrete body. -/
theorem c10_deterministic_w :
    (parseCollectionResponse "\x7b\"id\":\"1\",\"name\":\"TestCollection\"\x7d").1.id
        = (parseCollectionResponse "\x7b\"id\":\"1\",\"name\":\"TestCollection\"\x7d").1.id ∧
    (parseCollectionResponse "\x7b\"id\":\"1\",\"name\":\"TestCollection\"\x7d").1.name
        = (parseCollectionResponse "\x7b\"id\":\"1\",\"name\":\"TestCollection\"\x7d").1.name :=
  c10_deterministic "\x7b\"id\":\"1\",\"name\":\"TestCollection\"\x7d" _ _ rfl rfl
